import Mathlib

/-!
Verification development for the moltrade relayer.

Shallow embedding of the relayer's core pipeline:
  * payload extraction helpers from `src/relayer/src/core/event_router.rs`
    (`extract_trade_meta`, `extract_signal_meta`, `extract_agent_eth`),
  * the subscription / trade store operations from
    `src/relayer/src/core/subscription.rs` (modelled as pure operations on
    a relational `Db` value; SQL row mutation is made explicit),
  * the event router (`process_stream`, `flush_batch`,
    `handle_copytrade_fanout`, `process_trade_signal`,
    `maybe_record_trade`, `is_stale`, `maybe_update_last_seen`),
  * the settlement worker from `src/relayer/src/core/settlement_worker.rs`
    (`verify_tx_opt`, `compute_credit`, `tick`),
  * the config defaults from `src/relayer/src/config/mod.rs` together with
    the serde default semantics for the `[filters]` section, and
    `resolve_allowed_kinds` from `src/relayer/src/main.rs`.

Modelling conventions:
  * `f64` money/size values are idealized as exact rationals (`ℚ`); the
    spec itself declares finite-precision rounding acceptable in this
    domain.  A rational value is always finite, so `is_finite` checks are
    identically true in the model.
  * A JSON document is modelled post-parse: `PlainText := Option JsonObj`,
    where `none` stands for a string that is not valid JSON (serde parse
    failure) and `some o` for a string parsing to object `o`.  Only the
    value shapes the extraction code inspects (string, number, bool, null)
    are distinguished.
  * NIP-04 decryption is abstracted by storing the decryption outcome on
    the event (`none` = decrypt failure); re-encryption and publication
    are recorded as per-follower attempts.
  * Wall-clock time is a parameter `now : Nat` (seconds), frozen for the
    duration of one router flush / one settlement tick.
-/

/-- Post-parse JSON value, restricted to the shapes the extraction code
inspects via serde's `as_str` / `as_f64` / `as_bool`. -/
inductive JsonVal where
  | str (s : String)
  | num (q : ℚ)
  | bool (b : Bool)
  | null
  deriving DecidableEq, Repr

/-- A parsed JSON object: association list from keys to values.  serde's
`Value::get` returns the value of the first matching key. -/
abbrev JsonObj := List (String × JsonVal)

/-- A plaintext string abstracted by its JSON parse result: `none` models a
string that is not valid JSON. -/
abbrev PlainText := Option JsonObj

namespace JsonVal

/-- serde `Value::as_str`. -/
def asStr : JsonVal → Option String
  | .str s => some s
  | _ => none

/-- serde `Value::as_f64` (numbers idealized as rationals). -/
def asF64 : JsonVal → Option ℚ
  | .num q => some q
  | _ => none

/-- serde `Value::as_bool`. -/
def asBool : JsonVal → Option Bool
  | .bool b => some b
  | _ => none

end JsonVal

/-- serde `Value::get(key)` on an object. -/
def jsonGet (o : JsonObj) (key : String) : Option JsonVal :=
  (o.find? (fun kv => kv.1 = key)).map (·.2)

/-- `get(k).and_then(as_str).map(to_string)`. -/
def getStr (o : JsonObj) (key : String) : Option String :=
  (jsonGet o key).bind JsonVal.asStr

/-- `get(k).and_then(as_f64)`. -/
def getF64 (o : JsonObj) (key : String) : Option ℚ :=
  (jsonGet o key).bind JsonVal.asF64

/-- Rust `str::eq_ignore_ascii_case`, on ASCII payloads. -/
def eqIgnoreAsciiCase (a b : String) : Bool :=
  a.toLower = b.toLower

/-- `TradeMeta` from `event_router.rs`. -/
structure TradeMeta where
  tx_hash : Option String
  oid : Option String
  symbol : Option String
  side : Option String
  size : Option ℚ
  price : Option ℚ
  status : Option String
  pnl : Option ℚ
  pnl_usd : Option ℚ
  follower_pubkey : Option String
  role : String
  is_test : Bool
  deriving DecidableEq, Repr

/-- `SignalMeta` from `event_router.rs` (all fields default to `None`). -/
structure SignalMeta where
  agent_eth_address : Option String := none
  follower_pubkey : Option String := none
  role : Option String := none
  symbol : Option String := none
  side : Option String := none
  size : Option ℚ := none
  price : Option ℚ := none
  status : Option String := none
  tx_hash : Option String := none
  pnl : Option ℚ := none
  pnl_usd : Option ℚ := none
  deriving DecidableEq, Repr

/-- `extract_trade_meta` from `event_router.rs`: parse the plaintext; pull
trade fields; return `none` on parse failure or when both `tx_hash` and
`oid`/`order_id` are absent. -/
def extract_trade_meta (plaintext : PlainText) : Option TradeMeta := do
  let parsed ← plaintext
  let tx_hash := getStr parsed "tx_hash"
  let oid := ((jsonGet parsed "oid").or (jsonGet parsed "order_id")).bind JsonVal.asStr
  let symbol := getStr parsed "symbol"
  let side := getStr parsed "side"
  let size := getF64 parsed "size"
  let price := getF64 parsed "price"
  let status := getStr parsed "status"
  let is_test :=
    (((jsonGet parsed "test_mode").bind JsonVal.asBool).getD false) ||
    (((getStr parsed "status").map (fun s => eqIgnoreAsciiCase s "simulated")).getD false)
  let pnl := getF64 parsed "pnl"
  let pnl_usd := getF64 parsed "pnl_usd"
  let follower_pubkey := ((jsonGet parsed "follower_pubkey").or (jsonGet parsed "follower")).bind JsonVal.asStr
  let role := (getStr parsed "role").getD "leader"
  if tx_hash.isNone ∧ oid.isNone then
    none
  else
    some { tx_hash, oid, symbol, side, size, price, status, pnl, pnl_usd,
           follower_pubkey, role, is_test }

/-- `extract_signal_meta` from `event_router.rs`: parse failure yields the
all-`None` default. -/
def extract_signal_meta (plaintext : PlainText) : SignalMeta :=
  match plaintext with
  | none => {}
  | some parsed =>
    { agent_eth_address :=
        ((((jsonGet parsed "agent_eth_address").or (jsonGet parsed "agent")).or
          (jsonGet parsed "account")).or (jsonGet parsed "eth_address")).bind JsonVal.asStr
      follower_pubkey :=
        ((jsonGet parsed "follower_pubkey").or (jsonGet parsed "follower")).bind JsonVal.asStr
      role := getStr parsed "role"
      symbol := getStr parsed "symbol"
      side := getStr parsed "side"
      size := getF64 parsed "size"
      price := getF64 parsed "price"
      status := getStr parsed "status"
      tx_hash := getStr parsed "tx_hash"
      pnl := getF64 parsed "pnl"
      pnl_usd := getF64 parsed "pnl_usd" }

/-- `extract_agent_eth` from `event_router.rs`. -/
def extract_agent_eth (plaintext : PlainText) : Option String :=
  (extract_signal_meta plaintext).agent_eth_address

/-! ## Subscription & trade store (`subscription.rs`), modelled relationally -/

/-- A row of the `bots` table. -/
structure BotRow where
  bot_pubkey : String
  nostr_pubkey : String
  eth_address : String
  name : String
  last_seen_at : Nat
  deriving DecidableEq, Repr

/-- A row of the `subscriptions` table. -/
structure SubscriptionRow where
  bot_pubkey : String
  follower_pubkey : String
  shared_secret : String
  deriving DecidableEq, Repr

/-- A row of the `trade_executions` table. -/
structure TradeRow where
  bot_pubkey : String
  follower_pubkey : Option String
  role : String
  symbol : String
  side : String
  size : ℚ
  price : ℚ
  tx_hash : Option String
  oid : Option String
  is_test : Bool
  status : String
  pnl : Option ℚ
  pnl_usd : Option ℚ
  created_at : Nat
  updated_at : Nat
  deriving DecidableEq, Repr

/-- A row of the `credits` table. -/
structure CreditRow where
  bot_pubkey : String
  follower_pubkey : String
  credits : ℚ
  deriving DecidableEq, Repr

/-- A row of the `signals` table (`SignalInsert` shape). -/
structure SignalRow where
  event_id : String
  kind : Nat
  bot_pubkey : Option String
  leader_pubkey : String
  follower_pubkey : Option String
  agent_eth_address : Option String
  role : Option String
  symbol : Option String
  side : Option String
  size : Option ℚ
  price : Option ℚ
  status : Option String
  tx_hash : Option String
  pnl : Option ℚ
  pnl_usd : Option ℚ
  raw_content : PlainText
  event_created_at : Nat
  deriving DecidableEq, Repr

/-- The relational database state behind `SubscriptionService`.  Lists keep
insertion order (`BIGSERIAL` / `created_at DEFAULT now()` order). -/
structure Db where
  bots : List BotRow
  subscriptions : List SubscriptionRow
  trades : List TradeRow
  credits : List CreditRow
  signals : List SignalRow
  deriving DecidableEq, Repr

/-- `register_bot`: upsert on `bot_pubkey`; on conflict overwrite `name`,
`nostr_pubkey`, `eth_address`. -/
def register_bot (db : Db) (bot_pubkey nostr_pubkey eth_address name : String)
    (now : Nat) : Db :=
  if db.bots.any (fun b => b.bot_pubkey = bot_pubkey) then
    { db with bots := db.bots.map (fun b =>
        if b.bot_pubkey = bot_pubkey then
          { b with name, nostr_pubkey, eth_address }
        else b) }
  else
    { db with bots := db.bots ++ [{ bot_pubkey, nostr_pubkey, eth_address, name,
                                    last_seen_at := now }] }

/-- `find_bot_by_eth`: `eth_address` is UNIQUE, so the first match is the
row. -/
def find_bot_by_eth (db : Db) (eth : String) : Option BotRow :=
  db.bots.find? (fun b => b.eth_address = eth)

/-- `list_subscriptions` for a bot. -/
def list_subscriptions (db : Db) (bot_pubkey : String) : List SubscriptionRow :=
  db.subscriptions.filter (fun s => s.bot_pubkey = bot_pubkey)

/-- `update_bot_last_seen`: set `last_seen_at = now()` for the bot. -/
def update_bot_last_seen (db : Db) (bot_pubkey : String) (now : Nat) : Db :=
  { db with bots := db.bots.map (fun b =>
      if b.bot_pubkey = bot_pubkey then { b with last_seen_at := now } else b) }

/-- Whether inserting a trade with these keys conflicts with an existing row
(UNIQUE constraints on non-null `tx_hash` and `oid`). -/
def tradeKeyConflict (db : Db) (tx_hash oid : Option String) : Bool :=
  db.trades.any (fun r =>
    (tx_hash.isSome ∧ r.tx_hash = tx_hash) ∨ (oid.isSome ∧ r.oid = oid))

/-- `record_trade_tx`: INSERT with `status` defaulting to `'pending'`;
`ON CONFLICT DO NOTHING` on the UNIQUE keys. -/
def record_trade_tx (db : Db) (bot_pubkey : String) (follower_pubkey : Option String)
    (role symbol side : String) (size price : ℚ)
    (tx_hash oid : Option String) (is_test : Bool) (now : Nat) : Db :=
  if tradeKeyConflict db tx_hash oid then db
  else
    { db with trades := db.trades ++
        [{ bot_pubkey, follower_pubkey, role, symbol, side, size, price,
           tx_hash, oid, is_test, status := "pending", pnl := none,
           pnl_usd := none, created_at := now, updated_at := now }] }

/-- Whether the settlement UPDATE's WHERE clause matches a row:
`($1 IS NOT NULL AND tx_hash = $1) OR ($5 IS NOT NULL AND oid = $5)`. -/
def settlementMatches (tx_hash oid : Option String) (r : TradeRow) : Bool :=
  (tx_hash.isSome ∧ r.tx_hash = tx_hash) ∨ (oid.isSome ∧ r.oid = oid)

/-- `update_trade_settlement`: no-op when both keys are null; otherwise
`SET status = $2, pnl = COALESCE($3, pnl), pnl_usd = COALESCE($4, pnl_usd),
updated_at = now()` on every matching row. -/
def update_trade_settlement (db : Db) (tx_hash oid : Option String)
    (status : String) (pnl pnl_usd : Option ℚ) (now : Nat) : Db :=
  if tx_hash.isNone ∧ oid.isNone then db
  else
    { db with trades := db.trades.map (fun r =>
        if settlementMatches tx_hash oid r then
          { r with status, pnl := pnl.or r.pnl, pnl_usd := pnl_usd.or r.pnl_usd,
                   updated_at := now }
        else r) }

/-- The `PendingTrade` projection returned by `list_pending_trades`. -/
structure PendingTrade where
  tx_hash : Option String
  oid : Option String
  bot_pubkey : String
  follower_pubkey : Option String
  role : String
  size : ℚ
  price : ℚ
  pnl_usd : Option ℚ
  is_test : Bool
  deriving DecidableEq, Repr

/-- Project a trade row onto the settlement worker's view. -/
def TradeRow.toPending (r : TradeRow) : PendingTrade :=
  { tx_hash := r.tx_hash, oid := r.oid, bot_pubkey := r.bot_pubkey,
    follower_pubkey := r.follower_pubkey, role := r.role, size := r.size,
    price := r.price, pnl_usd := r.pnl_usd, is_test := r.is_test }

/-- `list_pending_trades`: rows with `status = 'pending'`, oldest first
(`created_at ASC`, modelled by stable insertion order), limited. -/
def list_pending_trades (db : Db) (limit : Nat) : List PendingTrade :=
  ((db.trades.filter (fun r => r.status = "pending")).take limit).map TradeRow.toPending

/-- `award_credits`: upsert on `(bot, follower)` that adds `delta` on
conflict. -/
def award_credits (db : Db) (bot_pubkey follower_pubkey : String) (delta : ℚ) : Db :=
  if db.credits.any (fun c => c.bot_pubkey = bot_pubkey ∧ c.follower_pubkey = follower_pubkey) then
    { db with credits := db.credits.map (fun c =>
        if c.bot_pubkey = bot_pubkey ∧ c.follower_pubkey = follower_pubkey then
          { c with credits := c.credits + delta }
        else c) }
  else
    { db with credits := db.credits ++ [{ bot_pubkey, follower_pubkey, credits := delta }] }

/-- `record_signal`: INSERT; `ON CONFLICT (event_id) DO NOTHING`. -/
def record_signal (db : Db) (s : SignalRow) : Db :=
  if db.signals.any (fun r => r.event_id = s.event_id) then db
  else { db with signals := db.signals ++ [s] }

/-! ## Deduplication engine (spec-modelled) -/

/-- Modelled from the spec: `core/dedupe_engine.rs` is not among the
sources.  §4.B's contract is modelled by the authoritative set of
forwarded ids: `is_duplicate(event)` returns `true` iff the id was
previously accepted for forwarding via `record_forwarded`; ids observed
but never forwarded may be re-inspected.  The hot-set / bloom / LRU tiers
are caches over this set and do not change the contract. -/
structure DedupState where
  forwarded : List String
  deriving DecidableEq, Repr

/-- Modelled from the spec: §4.B contract of `is_duplicate`. -/
def is_duplicate (d : DedupState) (id : String) : Bool :=
  d.forwarded.contains id

/-- Modelled from the spec: §4.B `record_forwarded(id)` inserts the id into
all tiers and appends it to the forward index. -/
def record_forwarded (d : DedupState) (id : String) : DedupState :=
  { forwarded := id :: d.forwarded }

/-! ## Event router (`event_router.rs`) -/

/-- An in-flight bus event.  `decrypted` is the NIP-04 decryption outcome
of `content` under the platform key (`none` = decrypt failure); `plain`
is the JSON parse of the raw `content` (used by plaintext kinds). -/
structure Event where
  id : String
  pubkey : String
  kind : Nat
  created_at : Nat
  decrypted : Option PlainText
  plain : PlainText
  deriving DecidableEq, Repr

/-- `EventWrapper` from `event_router.rs`: an event paired with the
timestamp it is sorted by (`created_at.as_secs()`). -/
structure EventWrapper where
  event : Event
  timestamp : Nat
  deriving DecidableEq, Repr

/-- The order `impl Ord for EventWrapper` compares by: timestamp only. -/
def wrapperLE (a b : EventWrapper) : Prop :=
  a.timestamp ≤ b.timestamp

instance : DecidableRel wrapperLE := fun a b => Nat.decLe a.timestamp b.timestamp

instance : IsTotal EventWrapper wrapperLE :=
  ⟨fun a b => Nat.le_total a.timestamp b.timestamp⟩

instance : IsTrans EventWrapper wrapperLE :=
  ⟨fun _ _ _ h h' => Nat.le_trans h h'⟩

/-- `pending.sort()`: stable sort ascending by timestamp. -/
def sortPending (l : List EventWrapper) : List EventWrapper :=
  List.insertionSort wrapperLE l

/-- `FanoutMessage` from `subscription.rs`. -/
structure FanoutMessage where
  target_pubkey : String
  bot_pubkey : String
  kind : Nat
  original_event_id : String
  payload : PlainText
  deriving DecidableEq, Repr

/-- One per-follower re-publication attempt (re-encrypt under the key in
`shared_secret` and publish; per-follower failures are non-fatal). -/
structure PublishAttempt where
  follower_shared_secret : String
  kind : Nat
  original_event_id : String
  deriving DecidableEq, Repr

/-- Router configuration and frozen wall clock. -/
structure RouterCtx where
  platform_pubkey : String
  batch_size : Nat
  allowed_kinds : Option (List Nat)
  now : Nat
  deriving Repr

/-- Full router state: pending buffer plus every observable effect sink. -/
structure RouterState where
  pending : List EventWrapper
  db : Db
  heartbeat_seen : List (String × Nat)
  dedup : DedupState
  downstream : List Event
  fanout : List FanoutMessage
  publishes : List PublishAttempt
  deriving DecidableEq, Repr

def KIND_TRADE_SIGNAL : Nat := 30931
def KIND_COPYTRADE_INTENT : Nat := 30932
def KIND_HEARTBEAT : Nat := 30933
def KIND_EXECUTION_REPORT : Nat := 30934
def KIND_AGENT_REGISTER : Nat := 30935

/-- `STALE_AFTER` (10 minutes) in seconds. -/
def STALE_AFTER_SECS : Nat := 10 * 60

/-- `is_stale`: `now.saturating_sub(created_at) > STALE_AFTER`. -/
def is_stale (now : Nat) (e : Event) : Bool :=
  now - e.created_at > STALE_AFTER_SECS

/-- `maybe_update_last_seen`: for heartbeat events, update
`bots.last_seen_at`, throttled to once per 15 minutes per bot through the
in-memory `heartbeat_seen` map. -/
def maybe_update_last_seen (now : Nat) (st : RouterState) (e : Event) : RouterState :=
  if e.kind ≠ KIND_HEARTBEAT then st
  else
    let bot_pubkey := e.pubkey
    match st.heartbeat_seen.find? (fun kv => kv.1 = bot_pubkey) with
    | some kv =>
      if now - kv.2 < 15 * 60 then st
      else
        { st with
          heartbeat_seen := (bot_pubkey, now) ::
            st.heartbeat_seen.filter (fun kv' => kv'.1 ≠ bot_pubkey),
          db := update_bot_last_seen st.db bot_pubkey now }
    | none =>
      { st with
        heartbeat_seen := (bot_pubkey, now) :: st.heartbeat_seen,
        db := update_bot_last_seen st.db bot_pubkey now }

/-- `maybe_record_trade`: extract trade metadata from the plaintext; if
present, insert the trade row with `oid` falling back to the event id, and
when any of status/pnl/pnl_usd is set, also update settlement. -/
def maybe_record_trade (now : Nat) (db : Db) (bot_pubkey : String)
    (plaintext : PlainText) (event_id : String) : Db :=
  match extract_trade_meta plaintext with
  | none => db
  | some meta =>
    let oid_fallback := meta.oid.or (some event_id)
    let db1 := record_trade_tx db bot_pubkey meta.follower_pubkey meta.role
      (meta.symbol.getD "") (meta.side.getD "") (meta.size.getD 0)
      (meta.price.getD 0) meta.tx_hash oid_fallback meta.is_test now
    if meta.status.isSome || meta.pnl.isSome || meta.pnl_usd.isSome then
      update_trade_settlement db1 meta.tx_hash oid_fallback
        (meta.status.getD "pending") meta.pnl meta.pnl_usd now
    else db1

/-- The per-follower fanout + re-publication tail shared by the trade-signal
and generic encrypted paths: one WebSocket `FanoutMessage` and one
re-publication attempt per follower. -/
def fanoutAndPublish (st : RouterState) (bot : BotRow) (e : Event)
    (plaintext : PlainText) (followers : List SubscriptionRow) : RouterState :=
  if followers.isEmpty then st
  else
    { st with
      fanout := st.fanout ++ followers.map (fun f =>
        { target_pubkey := f.follower_pubkey, bot_pubkey := bot.bot_pubkey,
          kind := e.kind, original_event_id := e.id, payload := plaintext }),
      publishes := st.publishes ++ followers.map (fun f =>
        { follower_shared_secret := f.shared_secret, kind := e.kind,
          original_event_id := e.id }) }

/-- `process_trade_signal`: always insert the SignalLog row (with a null
`bot_pubkey` when the agent cannot be resolved), then — only when the bot
resolved — record the trade and fan out. -/
def process_trade_signal (ctx : RouterCtx) (st : RouterState) (e : Event)
    (plaintext : PlainText) : RouterState :=
  let meta := extract_signal_meta plaintext
  let bot := meta.agent_eth_address.bind (find_bot_by_eth st.db)
  let row : SignalRow :=
    { event_id := e.id, kind := e.kind, bot_pubkey := bot.map (·.bot_pubkey),
      leader_pubkey := e.pubkey, follower_pubkey := meta.follower_pubkey,
      agent_eth_address := meta.agent_eth_address, role := meta.role,
      symbol := meta.symbol, side := meta.side, size := meta.size,
      price := meta.price, status := meta.status, tx_hash := meta.tx_hash,
      pnl := meta.pnl, pnl_usd := meta.pnl_usd, raw_content := plaintext,
      event_created_at := e.created_at }
  let st1 := { st with db := record_signal st.db row }
  match bot with
  | none => st1
  | some b =>
    let db2 := maybe_record_trade ctx.now st1.db b.bot_pubkey plaintext e.id
    let followers := list_subscriptions db2 b.bot_pubkey
    fanoutAndPublish { st1 with db := db2 } b e plaintext followers

/-- The generic encrypted path (CopyTradeIntent, ExecutionReport, other
encrypted kinds): require the agent eth address (error and drop when
missing), resolve the bot, record the trade, fan out. -/
def handle_generic_encrypted (ctx : RouterCtx) (st : RouterState) (e : Event)
    (plaintext : PlainText) : RouterState :=
  match extract_agent_eth plaintext with
  | none => st
  | some eth =>
    match find_bot_by_eth st.db eth with
    | none => st
    | some bot =>
      let db2 := maybe_record_trade ctx.now st.db bot.bot_pubkey plaintext e.id
      let followers := list_subscriptions db2 bot.bot_pubkey
      fanoutAndPublish { st with db := db2 } bot e plaintext followers

/-- The `AgentRegister` branch of the classifier: parse the plaintext JSON,
fall back missing keys to the event pubkey / `"agent"`, drop when the eth
address is missing, else upsert the bot. -/
def handle_agent_register (ctx : RouterCtx) (st : RouterState) (e : Event) : RouterState :=
  match e.plain with
  | none => st
  | some parsed =>
    let nostr_pubkey := (getStr parsed "nostr_pubkey").getD e.pubkey
    let bot_pubkey := (getStr parsed "bot_pubkey").getD e.pubkey
    let eth_address :=
      (((jsonGet parsed "eth_address").or (jsonGet parsed "account")).bind
        JsonVal.asStr).getD ""
    let name := (getStr parsed "name").getD "agent"
    if eth_address = "" then st
    else { st with db := register_bot st.db bot_pubkey nostr_pubkey eth_address name ctx.now }

/-- `handle_copytrade_fanout`: the classifier dispatch.  Heartbeats
short-circuit; AgentRegister upserts the bot; encrypted kinds skip
self-published echoes, require decryption, then branch on TradeSignal
versus the generic encrypted path.  (The subscription service and platform
keys are configured in this model; without them the code returns early.) -/
def handle_copytrade_fanout (ctx : RouterCtx) (st : RouterState) (e : Event) : RouterState :=
  if e.kind = KIND_HEARTBEAT then st
  else if e.kind = KIND_AGENT_REGISTER then handle_agent_register ctx st e
  else if e.pubkey = ctx.platform_pubkey then st
  else
    match e.decrypted with
    | none => st
    | some plaintext =>
      if e.kind = KIND_TRADE_SIGNAL then process_trade_signal ctx st e plaintext
      else handle_generic_encrypted ctx st e plaintext

/-- One event of the flush loop body: the staleness gate skips the event
entirely; otherwise heartbeat side-effect, classifier, downstream send.
No forwarded-id record is written to the dedup engine (the code never
calls `record_forwarded`). -/
def routeEvent (ctx : RouterCtx) (st : RouterState) (e : Event) : RouterState :=
  if is_stale ctx.now e then st
  else
    let st1 := maybe_update_last_seen ctx.now st e
    let st2 := handle_copytrade_fanout ctx st1 e
    { st2 with downstream := st2.downstream ++ [e] }

/-- `flush_batch`: sort the pending buffer ascending by timestamp, drain
the oldest `min(batch_size, |pending|)` events, process each in order. -/
def flush_batch (ctx : RouterCtx) (st : RouterState) : RouterState :=
  let n := min ctx.batch_size st.pending.length
  if n = 0 then st
  else
    let sorted := sortPending st.pending
    let batch := (sorted.take n).map (·.event)
    let rest := sorted.drop n
    batch.foldl (routeEvent ctx) { st with pending := rest }

/-- The per-event ingest step of `process_stream`: kind allow-list filter,
dedup `is_duplicate` check, push into the pending buffer, flush when the
buffer reaches `batch_size`. -/
def ingestStep (ctx : RouterCtx) (st : RouterState) (e : Event) : RouterState :=
  match ctx.allowed_kinds with
  | some allowed =>
    if ¬ allowed.contains e.kind then st else ingestAccept ctx st e
  | none => ingestAccept ctx st e
where
  /-- The body after the allow-list filter. -/
  ingestAccept (ctx : RouterCtx) (st : RouterState) (e : Event) : RouterState :=
    if is_duplicate st.dedup e.id then st
    else
      let st1 := { st with pending := st.pending ++ [⟨e, e.created_at⟩] }
      if ctx.batch_size ≤ st1.pending.length then flush_batch ctx st1 else st1

/-- `process_stream` restricted to its receive branch: fold the ingest step
over the input sequence.  (Timer-driven flushes are additional
`flush_batch` calls and change nothing about per-flush behavior.) -/
def process_stream (ctx : RouterCtx) (st : RouterState) (input : List Event) : RouterState :=
  input.foldl (ingestStep ctx) st

/-! ## Settlement worker (`settlement_worker.rs`) and credit config -/

/-- `SettlementCreditConfig` from `config/mod.rs`.  The `test_multiplier`
field is Modelled from the spec: it is read by `compute_credit` in
`settlement_worker.rs` and listed in the spec's `settlement.credit` config
section, but the struct in `config/mod.rs` (a drifted revision) lacks it. -/
structure SettlementCreditConfig where
  leader_rate : ℚ
  follower_rate : ℚ
  min_credit : ℚ
  profit_multiplier : ℚ
  enable : Bool
  test_multiplier : ℚ
  deriving DecidableEq, Repr

/-- `verify_tx_opt`: `None`/empty hash probe nothing; otherwise classify the
explorer's HTTP status — 200 confirmed, 404 unknown, any other 4xx/5xx
failed, anything else unknown.  The explorer is a total response function
(network errors propagate as `Err` in the code and change no state). -/
def verify_tx_opt (explorer : String → Nat) (tx_hash : Option String) : Option Bool :=
  match tx_hash with
  | some v =>
    if v = "" then none
    else
      let s := explorer v
      if s = 200 then some true
      else if s = 404 then none
      else if 400 ≤ s ∧ s < 600 then some false
      else none
  | none => none

/-- `compute_credit`: disabled config yields no award; otherwise
`max(size·price·rate, min_credit)`, scaled by the profit and test
multipliers; award iff the result is finite (identically true over `ℚ`)
and strictly positive. -/
def compute_credit (cfg : Option SettlementCreditConfig) (t : PendingTrade) : Option ℚ :=
  match cfg with
  | none => none
  | some c =>
    if !c.enable then none
    else
      let base_rate := if t.role = "leader" then c.leader_rate else c.follower_rate
      let credit0 := max (t.size * t.price * base_rate) c.min_credit
      let credit1 :=
        match t.pnl_usd with
        | some p => if p > 0 then credit0 * c.profit_multiplier else credit0
        | none => credit0
      let credit2 := if t.is_test then credit1 * c.test_multiplier else credit1
      if credit2 > 0 then some credit2 else none

/-- Processing of one pending trade inside `tick`: verified → confirm then
award; refuted → fail; unknown → credit-and-confirm only when `tx_hash` is
absent, else leave untouched. -/
def tickTrade (cfg : Option SettlementCreditConfig) (explorer : String → Nat)
    (now : Nat) (db : Db) (t : PendingTrade) : Db :=
  match verify_tx_opt explorer t.tx_hash with
  | some true =>
    let db1 := update_trade_settlement db t.tx_hash t.oid "confirmed" none none now
    match compute_credit cfg t with
    | some credit =>
      award_credits db1 t.bot_pubkey (t.follower_pubkey.getD t.bot_pubkey) credit
    | none => db1
  | some false => update_trade_settlement db t.tx_hash t.oid "failed" none none now
  | none =>
    if t.tx_hash.isNone then
      let db1 :=
        match compute_credit cfg t with
        | some credit =>
          award_credits db t.bot_pubkey (t.follower_pubkey.getD t.bot_pubkey) credit
        | none => db
      update_trade_settlement db1 t.tx_hash t.oid "confirmed" none none now
    else db

/-- One settlement `tick`: fetch up to `batch_limit` pending trades oldest
first, process each in order (per-row failures do not stop the tick). -/
def tick (cfg : Option SettlementCreditConfig) (explorer : String → Nat)
    (batch_limit : Nat) (now : Nat) (db : Db) : Db :=
  (list_pending_trades db batch_limit).foldl (tickTrade cfg explorer now) db

/-! ## Config defaults (`config/mod.rs`) and `resolve_allowed_kinds`
(`main.rs`) -/

/-- `default_allowed_kinds` from `config/mod.rs`. -/
def default_allowed_kinds : List Nat := [30931, 30932, 30933, 30934]

/-- `FilterConfig` from `config/mod.rs`. -/
structure FilterConfig where
  allowed_kinds : List Nat
  deriving DecidableEq, Repr

/-- Rust `#[derive(Default)]` on `FilterConfig`: every field takes its own
`Default`, so `allowed_kinds = Vec::default() = []`.  The field-level
`#[serde(default = "default_allowed_kinds")]` attribute does not
participate in the derived `Default` impl. -/
def FilterConfig.derivedDefault : FilterConfig := { allowed_kinds := [] }

/-- The three shapes the `[filters]` TOML section can take. -/
inductive FiltersSection where
  | absent
  | presentWithoutKey
  | presentWith (ks : List Nat)
  deriving DecidableEq, Repr

/-- serde deserialization of `AppConfig.filters`: the `#[serde(default)]`
on the `filters` field uses `FilterConfig`'s derived `Default` when the
section is absent; `default_allowed_kinds` applies only when the section
is present but the `allowed_kinds` key is missing. -/
def deserialize_filters : FiltersSection → FilterConfig
  | .absent => FilterConfig.derivedDefault
  | .presentWithoutKey => { allowed_kinds := default_allowed_kinds }
  | .presentWith ks => { allowed_kinds := ks }

/-- `resolve_allowed_kinds` from `main.rs`, on the filters component of the
optional config: take the configured list, dropping it when empty. -/
def resolve_allowed_kinds (cfg : Option FilterConfig) : Option (List Nat) :=
  (cfg.map (·.allowed_kinds)).filter (fun ks => ¬ ks.isEmpty)

/-! ## Fixtures and helper definitions -/

/-- The empty database. -/
def emptyDb : Db := { bots := [], subscriptions := [], trades := [], credits := [], signals := [] }

/-- An empty router state over a given database. -/
def emptyState (db : Db) : RouterState :=
  { pending := [], db, heartbeat_seen := [], dedup := { forwarded := [] },
    downstream := [], fanout := [], publishes := [] }

/-- The credit formula exactly as the spec writes it (§4.F):
`base = size × price × (role=="leader" ? leader_rate : follower_rate)`,
`credit = max(base, min_credit)`, `×profit_multiplier` when `pnl_usd > 0`,
`×test_multiplier` when `is_test`; award iff finite (always, over `ℚ`)
and strictly positive. -/
def spec_credit_award (c : SettlementCreditConfig) (size price : ℚ) (role : String)
    (pnl_usd : ℚ) (is_test : Bool) : Option ℚ :=
  let base := size * price * (if role = "leader" then c.leader_rate else c.follower_rate)
  let credit := max base c.min_credit
  let credit := if pnl_usd > 0 then credit * c.profit_multiplier else credit
  let credit := if is_test then credit * c.test_multiplier else credit
  if credit > 0 then some credit else none

/-- Concrete credit config of the spec's worked example (exact rationals:
`leader_rate = 0.002 = 1/500`, `min_credit = 0.5`,
`profit_multiplier = 1.2 = 6/5`). -/
def cfgC3 : SettlementCreditConfig :=
  { leader_rate := 1/500, follower_rate := 1/1000, min_credit := 1/2,
    profit_multiplier := 6/5, enable := true, test_multiplier := 1/10 }

/-- The spec's worked-example trade: `size=10, price=2, role=leader,
pnl_usd=5, is_test=false`. -/
def tradeC3 : PendingTrade :=
  { tx_hash := none, oid := some "oid-1", bot_pubkey := "B",
    follower_pubkey := none, role := "leader", size := 10, price := 2,
    pnl_usd := some 5, is_test := false }

/-- Router context with the allow-list resolved from a config whose
`[filters]` section is absent. -/
def ctxAbsentFilters : RouterCtx :=
  { platform_pubkey := "PLAT", batch_size := 100,
    allowed_kinds := resolve_allowed_kinds (some (deserialize_filters .absent)),
    now := 1000 }

/-- Same context but with `batch_size = 1` so every ingest flushes. -/
def ctxAbsentFiltersBs1 : RouterCtx :=
  { ctxAbsentFilters with batch_size := 1 }

/-- Context with the default allow-list explicitly configured
(`[filters]` present, `allowed_kinds` key absent). -/
def ctxDefaultKinds : RouterCtx :=
  { platform_pubkey := "PLAT", batch_size := 100,
    allowed_kinds := resolve_allowed_kinds (some (deserialize_filters .presentWithoutKey)),
    now := 1000 }

/-- An `AgentRegister` (kind 30935) event carrying an eth address. -/
def eAgentRegister : Event :=
  { id := "reg1", pubkey := "B", kind := 30935, created_at := 1000,
    decrypted := none, plain := some [("eth_address", .str "0xA")] }

/-- A router context with `batch_size = 1` (every accepted event flushes)
and no kind filter. -/
def ctxBs1 : RouterCtx :=
  { platform_pubkey := "PLAT", batch_size := 1, allowed_kinds := none, now := 1000 }

/-- A self-published trade-signal echo (the classifier skips it; only
forwarding remains). -/
def eEcho : Event :=
  { id := "e1", pubkey := "PLAT", kind := 30931, created_at := 1000,
    decrypted := none, plain := none }

/-- Router context with a platform key distinct from the senders used in
the fixtures. -/
def ctxPlat : RouterCtx :=
  { platform_pubkey := "PLAT", batch_size := 100, allowed_kinds := none, now := 1000 }

/-- The spec's S1 trade-signal payload: agent plus market fields, but no
`tx_hash` and no `oid`/`order_id`. -/
def payloadNoKeys : JsonObj :=
  [("agent_eth_address", .str "0xA"), ("symbol", .str "BTC"),
   ("side", .str "buy"), ("size", .num 1), ("price", .num 100)]

/-- Registered leader bot with eth address `0xA`. -/
def botB : BotRow :=
  { bot_pubkey := "B", nostr_pubkey := "B", eth_address := "0xA",
    name := "x", last_seen_at := 0 }

/-- Database holding only the registered bot. -/
def dbWithBotB : Db := { emptyDb with bots := [botB] }

/-- The S1 trade signal event, decrypting to `payloadNoKeys`. -/
def eSignalNoKeys : Event :=
  { id := "ev2", pubkey := "B", kind := 30931, created_at := 1000,
    decrypted := some (some payloadNoKeys), plain := none }

/-- A payload carrying a `tx_hash` but no `oid`/`order_id`. -/
def payloadTxOnly : JsonObj :=
  [("tx_hash", .str "0xdead"), ("symbol", .str "BTC")]

/-- Decrypted JSON carrying none of the agent-address keys. -/
def payloadNoAgent : JsonObj := [("symbol", .str "BTC")]

/-- A TradeSignal event decrypting to the agentless payload. -/
def eSignalNoAgent : Event :=
  { id := "s1", pubkey := "B", kind := 30931, created_at := 1000,
    decrypted := some (some payloadNoAgent), plain := none }

/-- A CopyTradeIntent event decrypting to the agentless payload. -/
def eIntentNoAgent : Event :=
  { id := "i1", pubkey := "B", kind := 30932, created_at := 1000,
    decrypted := some (some payloadNoAgent), plain := none }

/-- The SignalLog row that `process_trade_signal` writes when the bot could
not be resolved: all parsed fields, with `bot_pubkey = null`. -/
def orphanSignalRow (e : Event) (pt : PlainText) : SignalRow :=
  { event_id := e.id, kind := e.kind, bot_pubkey := none,
    leader_pubkey := e.pubkey,
    follower_pubkey := (extract_signal_meta pt).follower_pubkey,
    agent_eth_address := (extract_signal_meta pt).agent_eth_address,
    role := (extract_signal_meta pt).role,
    symbol := (extract_signal_meta pt).symbol,
    side := (extract_signal_meta pt).side,
    size := (extract_signal_meta pt).size,
    price := (extract_signal_meta pt).price,
    status := (extract_signal_meta pt).status,
    tx_hash := (extract_signal_meta pt).tx_hash,
    pnl := (extract_signal_meta pt).pnl,
    pnl_usd := (extract_signal_meta pt).pnl_usd,
    raw_content := pt, event_created_at := e.created_at }

/-- A concrete pending trade row with a hash the explorer answers 404 for. -/
def rowC4 : TradeRow :=
  { bot_pubkey := "B", follower_pubkey := none, role := "leader", symbol := "BTC",
    side := "buy", size := 10, price := 2, tx_hash := some "0xdead", oid := some "o4",
    is_test := false, status := "pending", pnl := none, pnl_usd := none,
    created_at := 0, updated_at := 0 }

/-- Database holding only `rowC4`. -/
def dbC4 : Db := { emptyDb with trades := [rowC4] }

/-! ## Shared helper lemmas and fixtures -/

/-- A fold whose step fixes every accumulator is the identity. -/
theorem foldl_fixed {α β : Type} (f : β → α → β) (l : List α) (b : β)
    (h : ∀ b' a, a ∈ l → f b' a = b') : l.foldl f b = b := by
  induction l generalizing b with
  | nil => rfl
  | cons x xs ih =>
    rw [List.foldl_cons, h b x (List.mem_cons_self x xs)]
    exact ih b (fun b' a ha => h b' a (List.mem_cons_of_mem x ha))

/-! ## C3 — settlement credit formula -/

/-- C3: for every pending trade, the worker's `compute_credit` equals the
spec formula (with an absent `pnl_usd` acting as 0, hence no profit
multiplier), awards exactly when the result is positive, and on the
spec's worked example (`size=10, price=2, leader_rate=0.002,
min_credit=0.5, profit_multiplier=1.2, pnl_usd=5, is_test=false`) the
awarded credit is `0.6 = 3/5`. -/
theorem C3_credit_formula (c : SettlementCreditConfig) (t : PendingTrade)
    (henable : c.enable = true) :
    compute_credit (some c) t =
      spec_credit_award c t.size t.price t.role (t.pnl_usd.getD 0) t.is_test ∧
    compute_credit (some cfgC3) tradeC3 = some (3/5) := by
  constructor
  · simp only [compute_credit, spec_credit_award, henable, Bool.not_true]
    cases hp : t.pnl_usd with
    | none => simp
    | some p => simp
  · simp only [compute_credit, cfgC3, tradeC3]
    norm_num

/-- Witness for C3 at the worked example. -/
theorem C3_credit_formula_witness :
    cfgC3.enable = true ∧
    compute_credit (some cfgC3) tradeC3 =
      spec_credit_award cfgC3 tradeC3.size tradeC3.price tradeC3.role
        (tradeC3.pnl_usd.getD 0) tradeC3.is_test :=
  ⟨rfl, (C3_credit_formula cfgC3 tradeC3 rfl).1⟩

/-! ## C5 — staleness gate -/

/-- C5: a stale event (`now − created_at > 10 min`) is skipped entirely by
the flush loop: the router state is unchanged — nothing sent downstream,
no classifier side effects, no heartbeat update, no dedup record. -/
theorem C5_staleness_gate (ctx : RouterCtx) (st : RouterState) (e : Event)
    (h : is_stale ctx.now e = true) :
    routeEvent ctx st e = st := by
  simp [routeEvent, h]

/-- Witness for C5: an event 900 seconds old is stale and skipped. -/
theorem C5_staleness_gate_witness :
    is_stale 1000 { id := "old", pubkey := "P", kind := 30931,
                    created_at := 100, decrypted := none, plain := none } = true ∧
    routeEvent { platform_pubkey := "PLAT", batch_size := 10, allowed_kinds := none, now := 1000 }
      (emptyState emptyDb)
      { id := "old", pubkey := "P", kind := 30931, created_at := 100,
        decrypted := none, plain := none } = emptyState emptyDb :=
  ⟨by decide, C5_staleness_gate _ _ _ (by decide)⟩

/-! ## C10 — empty tx_hash never settles -/

/-- C10: a pending trade whose `tx_hash` is the empty string is never
settled: verification yields no answer, the no-hash credit path is not
taken (`tx_hash` is non-null), so each trade step leaves the database
untouched, and a whole tick over a database of such trades is the
identity — the row stays `pending` and no credits are ever awarded. -/
theorem C10_empty_tx_hash_never_settles (cfg : Option SettlementCreditConfig)
    (explorer : String → Nat) (limit now : Nat) (db : Db) (t : PendingTrade)
    (ht : t.tx_hash = some "") :
    verify_tx_opt explorer t.tx_hash = none ∧
    (∀ db' : Db, tickTrade cfg explorer now db' t = db') ∧
    ((∀ r ∈ db.trades, r.status = "pending" → r.tx_hash = some "") →
      tick cfg explorer limit now db = db) := by
  refine ⟨by simp [verify_tx_opt, ht], fun db' => by simp [tickTrade, verify_tx_opt, ht], ?_⟩
  intro hall
  apply foldl_fixed
  intro b a ha
  simp only [list_pending_trades, List.mem_map] at ha
  obtain ⟨r, hr, hra⟩ := ha
  have hrmem := List.mem_of_mem_take hr
  have hrp := List.mem_filter.mp hrmem
  have : r.tx_hash = some "" := hall r hrp.1 (by simpa using hrp.2)
  have hatx : a.tx_hash = some "" := by rw [← hra]; exact this
  simp [tickTrade, verify_tx_opt, hatx]

/-- Witness for C10: a concrete empty-hash pending trade survives a tick
unchanged. -/
theorem C10_empty_tx_hash_never_settles_witness :
    verify_tx_opt (fun _ => 200)
      (some ("" : String)) = none ∧
    (∀ db' : Db, tickTrade (some cfgC3) (fun _ => 200) 5 db'
        { tx_hash := some "", oid := some "o1", bot_pubkey := "B",
          follower_pubkey := none, role := "leader", size := 1, price := 1,
          pnl_usd := none, is_test := false } = db') ∧
    ((∀ r ∈ emptyDb.trades, r.status = "pending" → r.tx_hash = some "") →
      tick (some cfgC3) (fun _ => 200) 50 5 emptyDb = emptyDb) :=
  C10_empty_tx_hash_never_settles (some cfgC3) (fun _ => 200) 50 5 emptyDb
    { tx_hash := some "", oid := some "o1", bot_pubkey := "B",
      follower_pubkey := none, role := "leader", size := 1, price := 1,
      pnl_usd := none, is_test := false } rfl

/-! ## C9 — default kind filter semantics -/

/-- C9 counterexample: with the `[filters]` section absent, serde uses
`FilterConfig`'s derived `Default` — the empty list, not
`default_allowed_kinds` — so `resolve_allowed_kinds` yields `none`, a
kind-30935 event passes ingest into the pending buffer, and a flush
registers the bot: registration over the bus does occur. -/
theorem C9_counterexample_absent_filters :
    (deserialize_filters .absent).allowed_kinds ≠ default_allowed_kinds ∧
    resolve_allowed_kinds (some (deserialize_filters .absent)) = none ∧
    (ingestStep ctxAbsentFilters (emptyState emptyDb) eAgentRegister).pending =
      [⟨eAgentRegister, 1000⟩] ∧
    (process_stream ctxAbsentFiltersBs1 (emptyState emptyDb) [eAgentRegister]).db.bots.map
      (·.bot_pubkey) = ["B"] := by decide

/-- C9 amended: an absent `[filters]` section produces an empty
`allowed_kinds`, which `resolve_allowed_kinds` turns into "no filter", so
every kind — 30935 and 39990 included — passes ingest into the pending
buffer; the default list `[30931, 30932, 30933, 30934]` applies only when
`[filters]` is present without the `allowed_kinds` key, and under that
configured list kinds 30935 and 39990 are dropped at ingest. -/
theorem C9_filters_default_semantics :
    resolve_allowed_kinds (some (deserialize_filters .absent)) = none ∧
    resolve_allowed_kinds (some (deserialize_filters .presentWithoutKey)) =
      some [30931, 30932, 30933, 30934] ∧
    (∀ (ctx : RouterCtx) (st : RouterState) (e : Event),
      ctx.allowed_kinds = some default_allowed_kinds →
      (e.kind = KIND_AGENT_REGISTER ∨ e.kind = 39990) →
      ingestStep ctx st e = st) ∧
    (∀ (ctx : RouterCtx) (st : RouterState) (e : Event),
      ctx.allowed_kinds = none →
      is_duplicate st.dedup e.id = false →
      st.pending.length + 1 < ctx.batch_size →
      (ingestStep ctx st e).pending = st.pending ++ [⟨e, e.created_at⟩]) := by
  refine ⟨by decide, by decide, ?_, ?_⟩
  · intro ctx st e hk hkind
    simp only [ingestStep, hk]
    rcases hkind with h | h <;>
      simp [h, KIND_AGENT_REGISTER, default_allowed_kinds]
  · intro ctx st e hk hdup hlen
    simp only [ingestStep, hk, ingestStep.ingestAccept, hdup, Bool.false_eq_true,
      if_false, List.length_append, List.length_cons, List.length_nil]
    rw [if_neg (by omega)]

/-- Witness for C9 amended: under the explicit default list a kind-30935
event is dropped at ingest. -/
theorem C9_filters_default_semantics_witness :
    ingestStep ctxDefaultKinds (emptyState emptyDb) eAgentRegister = emptyState emptyDb :=
  C9_filters_default_semantics.2.2.1 ctxDefaultKinds (emptyState emptyDb) eAgentRegister
    (by decide) (Or.inl rfl)

/-! ## C1 — forwarded ids are never recorded in the dedup engine -/

/-- C1, evaluated at the failing input: feeding the same event id twice
(with a flush in between) sends it downstream twice, the forward index
stays empty, and `is_duplicate` still answers `false` — the router never
calls `record_forwarded` after a downstream send, contrary to the spec's
step 5 of the flush loop and the §4.B contract. -/
theorem C1_router_never_records_forwarded :
    (process_stream ctxBs1 (emptyState emptyDb) [eEcho, eEcho]).downstream.map (·.id) =
      ["e1", "e1"] ∧
    (process_stream ctxBs1 (emptyState emptyDb) [eEcho, eEcho]).dedup.forwarded = [] ∧
    is_duplicate (process_stream ctxBs1 (emptyState emptyDb) [eEcho, eEcho]).dedup "e1" =
      false := by decide

/-! ## C2 — trade row insertion and the oid fallback -/

/-- C2 counterexample: the S1 payload — registered bot, no `tx_hash`, no
`oid`/`order_id` — inserts its SignalLog row, yet `extract_trade_meta`
bails out and **no** TradeExecution row is inserted; the claimed row with
`oid = event.id` does not exist. -/
theorem C2_counterexample_no_trade_row :
    extract_trade_meta (some payloadNoKeys) = none ∧
    (handle_copytrade_fanout ctxPlat (emptyState dbWithBotB) eSignalNoKeys).db.signals.map
      (·.event_id) = ["ev2"] ∧
    (handle_copytrade_fanout ctxPlat (emptyState dbWithBotB) eSignalNoKeys).db.trades =
      [] := by decide

/-- C2 amended: `extract_trade_meta` returns nothing when the payload
carries neither `tx_hash` nor `oid`/`order_id`, and then
`maybe_record_trade` writes no row at all; the `oid → event.id` fallback
takes effect only when the payload carries a key — with a `tx_hash` but
no `oid`, the inserted row is `pending` with `oid = event.id`. -/
theorem C2_trade_row_requires_key :
    (∀ (now : Nat) (db : Db) (bot : String) (pt : PlainText) (eid : String),
      extract_trade_meta pt = none → maybe_record_trade now db bot pt eid = db) ∧
    (∀ parsed : JsonObj,
      getStr parsed "tx_hash" = none →
      ((jsonGet parsed "oid").or (jsonGet parsed "order_id")).bind JsonVal.asStr = none →
      extract_trade_meta (some parsed) = none) ∧
    (∀ (now : Nat) (db : Db) (bot : String) (pt : PlainText) (eid : String) (m : TradeMeta),
      extract_trade_meta pt = some m →
      m.oid = none → m.status = none → m.pnl = none → m.pnl_usd = none →
      tradeKeyConflict db m.tx_hash (some eid) = false →
      (maybe_record_trade now db bot pt eid).trades = db.trades ++
        [{ bot_pubkey := bot, follower_pubkey := m.follower_pubkey,
           role := m.role, symbol := m.symbol.getD "", side := m.side.getD "",
           size := m.size.getD 0, price := m.price.getD 0, tx_hash := m.tx_hash,
           oid := some eid, is_test := m.is_test, status := "pending",
           pnl := none, pnl_usd := none, created_at := now, updated_at := now }]) := by
  refine ⟨?_, ?_, ?_⟩
  · intro now db bot pt eid h
    simp [maybe_record_trade, h]
  · intro parsed htx hoid
    simp [extract_trade_meta, htx, hoid]
  · intro now db bot pt eid m hm hoid hs hp hpu hconf
    simp [maybe_record_trade, hm, hoid, hs, hp, hpu, record_trade_tx, hconf, Option.or]

/-- Witness for C2 amended: the keyless S1 payload writes no trade row; the
`tx_hash`-only payload writes a pending row whose `oid` is the event id. -/
theorem C2_trade_row_requires_key_witness :
    maybe_record_trade 1000 dbWithBotB "B" (some payloadNoKeys) "ev2" = dbWithBotB ∧
    (maybe_record_trade 1000 dbWithBotB "B" (some payloadTxOnly) "ev3").trades =
      dbWithBotB.trades ++
        [{ bot_pubkey := "B", follower_pubkey := none, role := "leader",
           symbol := "BTC", side := "", size := 0, price := 0,
           tx_hash := some "0xdead", oid := some "ev3", is_test := false,
           status := "pending", pnl := none, pnl_usd := none,
           created_at := 1000, updated_at := 1000 }] :=
  ⟨C2_trade_row_requires_key.1 1000 dbWithBotB "B" (some payloadNoKeys) "ev2" (by decide),
   C2_trade_row_requires_key.2.2 1000 dbWithBotB "B" (some payloadTxOnly) "ev3"
     { tx_hash := some "0xdead", oid := none, symbol := some "BTC", side := none,
       size := none, price := none, status := none, pnl := none, pnl_usd := none,
       follower_pubkey := none, role := "leader", is_test := false }
     (by decide) rfl rfl rfl rfl (by decide)⟩

/-! ## C7 — encrypted events with no agent key -/

/-- C7 counterexample: a TradeSignal whose decrypted JSON has no agent key
still persists — the classifier inserts a SignalLog row (with null
`bot_pubkey`) before the agent check, contradicting "drops before any
persistence". -/
theorem C7_counterexample_signal_row_inserted :
    extract_agent_eth (some payloadNoAgent) = none ∧
    (handle_copytrade_fanout ctxPlat (emptyState emptyDb) eSignalNoAgent).db.signals.map
      (·.event_id) = ["s1"] := by decide

/-- C7 amended: when the decrypted JSON carries none of the agent keys, a
CopyTradeIntent or ExecutionReport is dropped with no effect at all, while
a TradeSignal still appends exactly its SignalLog row (with `bot_pubkey =
null`) — no trade row, no bot change, no credits change, no fanout, no
re-publication in either case. -/
theorem C7_missing_agent_behavior (ctx : RouterCtx) (st : RouterState) (e : Event)
    (pt : PlainText)
    (hpk : e.pubkey ≠ ctx.platform_pubkey)
    (hdec : e.decrypted = some pt)
    (hagent : extract_agent_eth pt = none) :
    ((e.kind = KIND_COPYTRADE_INTENT ∨ e.kind = KIND_EXECUTION_REPORT) →
      handle_copytrade_fanout ctx st e = st) ∧
    (e.kind = KIND_TRADE_SIGNAL →
      ∃ r : SignalRow, r.event_id = e.id ∧ r.bot_pubkey = none ∧
        handle_copytrade_fanout ctx st e = { st with db := record_signal st.db r } ∧
        (handle_copytrade_fanout ctx st e).db.trades = st.db.trades ∧
        (handle_copytrade_fanout ctx st e).db.bots = st.db.bots ∧
        (handle_copytrade_fanout ctx st e).db.credits = st.db.credits ∧
        (handle_copytrade_fanout ctx st e).fanout = st.fanout ∧
        (handle_copytrade_fanout ctx st e).publishes = st.publishes) := by
  constructor
  · intro hkind
    rcases hkind with h | h <;>
      simp [handle_copytrade_fanout, h, KIND_COPYTRADE_INTENT, KIND_EXECUTION_REPORT,
        KIND_HEARTBEAT, KIND_AGENT_REGISTER, KIND_TRADE_SIGNAL, hpk, hdec,
        handle_generic_encrypted, hagent]
  · intro hkind
    have hmeta : (extract_signal_meta pt).agent_eth_address = none := hagent
    refine ⟨orphanSignalRow e pt, rfl, rfl, ?_, ?_, ?_, ?_, ?_, ?_⟩ <;>
      simp [handle_copytrade_fanout, hkind, KIND_TRADE_SIGNAL, KIND_HEARTBEAT,
        KIND_AGENT_REGISTER, hpk, hdec, process_trade_signal, hmeta, record_signal,
        orphanSignalRow] <;>
      split <;> simp

/-- Witness for C7 amended: the agentless CopyTradeIntent leaves the state
untouched; the agentless TradeSignal state differs only by its orphan
SignalLog row. -/
theorem C7_missing_agent_behavior_witness :
    handle_copytrade_fanout ctxPlat (emptyState emptyDb) eIntentNoAgent =
      emptyState emptyDb :=
  (C7_missing_agent_behavior ctxPlat (emptyState emptyDb) eIntentNoAgent
    (some payloadNoAgent) (by decide) rfl (by decide)).1 (Or.inl rfl)

/-! ## C8 — settlement update frame conditions -/

/-- Pointwise `Forall₂` between a list and its image under a map. -/
theorem forall₂_map_self {α : Type} (f : α → α) (R : α → α → Prop) (l : List α)
    (h : ∀ x ∈ l, R x (f x)) : List.Forall₂ R l (l.map f) := by
  induction l with
  | nil => exact List.Forall₂.nil
  | cons x xs ih =>
    exact List.Forall₂.cons (h x (List.mem_cons_self x xs))
      (ih fun y hy => h y (List.mem_cons_of_mem x hy))

/-- C8: with both keys null, `update_trade_settlement` is a no-op; in every
case it touches no table but `trade_executions`, leaves unmatched rows
identical, and on matched rows changes only `status`, `pnl`, `pnl_usd` and
`updated_at` — with `COALESCE` keeping the existing value when the
incoming PnL is null. -/
theorem C8_update_settlement_frame (db : Db) (status : String)
    (pnl pnl_usd : Option ℚ) (now : Nat) :
    update_trade_settlement db none none status pnl pnl_usd now = db ∧
    (∀ tx_hash oid : Option String,
      (update_trade_settlement db tx_hash oid status pnl pnl_usd now).bots = db.bots ∧
      (update_trade_settlement db tx_hash oid status pnl pnl_usd now).subscriptions =
        db.subscriptions ∧
      (update_trade_settlement db tx_hash oid status pnl pnl_usd now).credits = db.credits ∧
      (update_trade_settlement db tx_hash oid status pnl pnl_usd now).signals = db.signals ∧
      List.Forall₂ (fun r r' : TradeRow =>
          (settlementMatches tx_hash oid r = false → r' = r) ∧
          (settlementMatches tx_hash oid r = true →
            r'.status = status ∧
            r'.pnl = pnl.or r.pnl ∧
            r'.pnl_usd = pnl_usd.or r.pnl_usd ∧
            r'.updated_at = now ∧
            r'.bot_pubkey = r.bot_pubkey ∧ r'.follower_pubkey = r.follower_pubkey ∧
            r'.role = r.role ∧ r'.symbol = r.symbol ∧ r'.side = r.side ∧
            r'.size = r.size ∧ r'.price = r.price ∧ r'.tx_hash = r.tx_hash ∧
            r'.oid = r.oid ∧ r'.is_test = r.is_test ∧ r'.created_at = r.created_at))
        db.trades (update_trade_settlement db tx_hash oid status pnl pnl_usd now).trades) := by
  refine ⟨by simp [update_trade_settlement], ?_⟩
  intro tx_hash oid
  by_cases hkeys : tx_hash.isNone ∧ oid.isNone
  · have hupd : update_trade_settlement db tx_hash oid status pnl pnl_usd now = db := by
      simp [update_trade_settlement, hkeys]
    have hmatch : ∀ r : TradeRow, settlementMatches tx_hash oid r = false := by
      intro r
      simp only [settlementMatches]
      rcases hkeys with ⟨h1, h2⟩
      simp [Option.isNone_iff_eq_none.mp h1, Option.isNone_iff_eq_none.mp h2]
    refine ⟨by rw [hupd], by rw [hupd], by rw [hupd], by rw [hupd], ?_⟩
    rw [hupd]
    exact List.forall₂_same.mpr
      (fun x _ => ⟨fun _ => rfl, fun hm => by rw [hmatch x] at hm; cases hm⟩)
  · have hupd : (update_trade_settlement db tx_hash oid status pnl pnl_usd now) =
        { db with trades := db.trades.map (fun r =>
            if settlementMatches tx_hash oid r then
              { r with status, pnl := pnl.or r.pnl, pnl_usd := pnl_usd.or r.pnl_usd,
                       updated_at := now }
            else r) } := by
      simp only [update_trade_settlement]
      rw [if_neg hkeys]
    refine ⟨by rw [hupd], by rw [hupd], by rw [hupd], by rw [hupd], ?_⟩
    rw [hupd]
    apply forall₂_map_self
    intro r _
    constructor
    · intro hm
      simp [hm]
    · intro hm
      simp [hm]

/-- Witness for C8: a concrete both-keys-null update leaves a one-trade
database unchanged. -/
theorem C8_update_settlement_frame_witness :
    update_trade_settlement dbWithBotB none none "confirmed" none (some 1) 7 =
      dbWithBotB :=
  (C8_update_settlement_frame dbWithBotB "confirmed" none (some 1) 7).1

/-! ## C6 — batch flush ordering -/

/-- The fanout tail never touches downstream, pending, or the dedup state. -/
theorem fanoutAndPublish_frame (st : RouterState) (bot : BotRow) (e : Event)
    (pt : PlainText) (fs : List SubscriptionRow) :
    (fanoutAndPublish st bot e pt fs).downstream = st.downstream ∧
    (fanoutAndPublish st bot e pt fs).pending = st.pending ∧
    (fanoutAndPublish st bot e pt fs).dedup = st.dedup := by
  simp only [fanoutAndPublish]
  split <;> simp

/-- Agent registration never touches downstream, pending, or dedup. -/
theorem handle_agent_register_frame (ctx : RouterCtx) (st : RouterState) (e : Event) :
    (handle_agent_register ctx st e).downstream = st.downstream ∧
    (handle_agent_register ctx st e).pending = st.pending ∧
    (handle_agent_register ctx st e).dedup = st.dedup := by
  simp only [handle_agent_register]
  split <;> (try split) <;> simp

/-- The trade-signal path never touches downstream, pending, or dedup. -/
theorem process_trade_signal_frame (ctx : RouterCtx) (st : RouterState) (e : Event)
    (pt : PlainText) :
    (process_trade_signal ctx st e pt).downstream = st.downstream ∧
    (process_trade_signal ctx st e pt).pending = st.pending ∧
    (process_trade_signal ctx st e pt).dedup = st.dedup := by
  simp only [process_trade_signal]
  split
  · simp
  · rename_i b _
    refine ⟨?_, ?_, ?_⟩ <;>
      simp [(fanoutAndPublish_frame _ _ _ _ _).1, (fanoutAndPublish_frame _ _ _ _ _).2.1,
        (fanoutAndPublish_frame _ _ _ _ _).2.2]

/-- The generic encrypted path never touches downstream, pending, or dedup. -/
theorem handle_generic_encrypted_frame (ctx : RouterCtx) (st : RouterState) (e : Event)
    (pt : PlainText) :
    (handle_generic_encrypted ctx st e pt).downstream = st.downstream ∧
    (handle_generic_encrypted ctx st e pt).pending = st.pending ∧
    (handle_generic_encrypted ctx st e pt).dedup = st.dedup := by
  simp only [handle_generic_encrypted]
  split
  · simp
  · split
    · simp
    · refine ⟨?_, ?_, ?_⟩ <;>
        simp [(fanoutAndPublish_frame _ _ _ _ _).1, (fanoutAndPublish_frame _ _ _ _ _).2.1,
          (fanoutAndPublish_frame _ _ _ _ _).2.2]

/-- The classifier never touches downstream, pending, or dedup. -/
theorem handle_copytrade_fanout_frame (ctx : RouterCtx) (st : RouterState) (e : Event) :
    (handle_copytrade_fanout ctx st e).downstream = st.downstream ∧
    (handle_copytrade_fanout ctx st e).pending = st.pending ∧
    (handle_copytrade_fanout ctx st e).dedup = st.dedup := by
  simp only [handle_copytrade_fanout]
  split
  · simp
  · split
    · exact handle_agent_register_frame ctx st e
    · split
      · simp
      · split
        · simp
        · split
          · exact process_trade_signal_frame ctx st e _
          · exact handle_generic_encrypted_frame ctx st e _

/-- The heartbeat side-effect never touches downstream, pending, or dedup. -/
theorem maybe_update_last_seen_frame (now : Nat) (st : RouterState) (e : Event) :
    (maybe_update_last_seen now st e).downstream = st.downstream ∧
    (maybe_update_last_seen now st e).pending = st.pending ∧
    (maybe_update_last_seen now st e).dedup = st.dedup := by
  simp only [maybe_update_last_seen]
  split
  · simp
  · split
    · split <;> simp
    · simp

/-- One flush-loop step appends the event to downstream exactly when it is
not stale, and leaves pending and dedup alone. -/
theorem routeEvent_components (ctx : RouterCtx) (st : RouterState) (e : Event) :
    (routeEvent ctx st e).downstream =
      st.downstream ++ (if is_stale ctx.now e then [] else [e]) ∧
    (routeEvent ctx st e).pending = st.pending ∧
    (routeEvent ctx st e).dedup = st.dedup := by
  simp only [routeEvent]
  split
  · simp
  · refine ⟨?_, ?_, ?_⟩ <;>
      simp [(handle_copytrade_fanout_frame _ _ _).1, (handle_copytrade_fanout_frame _ _ _).2.1,
        (handle_copytrade_fanout_frame _ _ _).2.2,
        (maybe_update_last_seen_frame _ _ _).1, (maybe_update_last_seen_frame _ _ _).2.1,
        (maybe_update_last_seen_frame _ _ _).2.2]

/-- Folding the flush loop over a batch appends exactly the non-stale
events, in batch order. -/
theorem foldl_routeEvent_downstream (ctx : RouterCtx) (batch : List Event) (st : RouterState) :
    (batch.foldl (routeEvent ctx) st).downstream =
      st.downstream ++ batch.filter (fun e => !is_stale ctx.now e) := by
  induction batch generalizing st with
  | nil => simp
  | cons e es ih =>
    rw [List.foldl_cons, ih, (routeEvent_components ctx st e).1]
    by_cases h : is_stale ctx.now e <;> simp [h]

/-- Folding the flush loop never changes the pending buffer. -/
theorem foldl_routeEvent_pending (ctx : RouterCtx) (batch : List Event) (st : RouterState) :
    (batch.foldl (routeEvent ctx) st).pending = st.pending := by
  induction batch generalizing st with
  | nil => rfl
  | cons e es ih =>
    rw [List.foldl_cons, ih, (routeEvent_components ctx st e).2.1]

/-- C6: a flush sorts the pending buffer ascending by timestamp and drains
exactly the oldest `min(batch_size, |pending|)` events: the drained batch
plus the remainder is a permutation of the buffer, the batch is
non-decreasing, every remaining event's timestamp is at least every
drained one's, and the events sent downstream during the flush are
exactly the non-stale drained events, in non-decreasing `created_at`
order. -/
theorem C6_batch_order (ctx : RouterCtx) (st : RouterState)
    (hts : ∀ w ∈ st.pending, w.timestamp = w.event.created_at) :
    ((sortPending st.pending).take (min ctx.batch_size st.pending.length) ++
      (sortPending st.pending).drop (min ctx.batch_size st.pending.length)).Perm
      st.pending ∧
    ((sortPending st.pending).take (min ctx.batch_size st.pending.length)).length =
      min ctx.batch_size st.pending.length ∧
    ((sortPending st.pending).take
      (min ctx.batch_size st.pending.length)).Pairwise wrapperLE ∧
    (∀ d ∈ (sortPending st.pending).take (min ctx.batch_size st.pending.length),
     ∀ r ∈ (sortPending st.pending).drop (min ctx.batch_size st.pending.length),
      d.timestamp ≤ r.timestamp) ∧
    (0 < min ctx.batch_size st.pending.length →
      (flush_batch ctx st).pending =
        (sortPending st.pending).drop (min ctx.batch_size st.pending.length) ∧
      (flush_batch ctx st).downstream = st.downstream ++
        ((((sortPending st.pending).take (min ctx.batch_size st.pending.length)).map
          (·.event)).filter (fun e => !is_stale ctx.now e)) ∧
      ((((sortPending st.pending).take (min ctx.batch_size st.pending.length)).map
          (·.event)).filter (fun e => !is_stale ctx.now e)).Pairwise
        (fun a b : Event => a.created_at ≤ b.created_at)) := by
  have hperm : (sortPending st.pending).Perm st.pending :=
    List.perm_insertionSort wrapperLE st.pending
  have hlen : (sortPending st.pending).length = st.pending.length := hperm.length_eq
  have hsorted : (sortPending st.pending).Pairwise wrapperLE :=
    List.sorted_insertionSort wrapperLE st.pending
  have hsplit : (sortPending st.pending).take (min ctx.batch_size st.pending.length) ++
      (sortPending st.pending).drop (min ctx.batch_size st.pending.length) =
      sortPending st.pending :=
    List.take_append_drop _ _
  refine ⟨by rw [hsplit]; exact hperm, ?_, ?_, ?_, ?_⟩
  · rw [List.length_take, hlen]
    omega
  · exact hsorted.sublist (List.take_sublist _ _)
  · intro d hd r hr
    have := (List.pairwise_append.mp (hsplit ▸ hsorted)).2.2
    exact this d hd r hr
  · intro hpos
    have hne : min ctx.batch_size st.pending.length ≠ 0 := Nat.pos_iff_ne_zero.mp hpos
    have hflush : flush_batch ctx st =
        (((sortPending st.pending).take (min ctx.batch_size st.pending.length)).map
          (·.event)).foldl (routeEvent ctx)
          { st with pending :=
              (sortPending st.pending).drop (min ctx.batch_size st.pending.length) } := by
      simp only [flush_batch]
      rw [if_neg hne]
    have hbatchts : ∀ w ∈ (sortPending st.pending).take
        (min ctx.batch_size st.pending.length), w.timestamp = w.event.created_at := by
      intro w hw
      exact hts w (hperm.mem_iff.mp (List.mem_of_mem_take hw))
    refine ⟨?_, ?_, ?_⟩
    · rw [hflush, foldl_routeEvent_pending]
    · rw [hflush, foldl_routeEvent_downstream]
    · have hpw : ((sortPending st.pending).take
          (min ctx.batch_size st.pending.length)).Pairwise
          (fun a b : EventWrapper => a.event.created_at ≤ b.event.created_at) := by
        refine List.Pairwise.imp_of_mem ?_ (hsorted.sublist (List.take_sublist _ _))
        intro a b ha hb hab
        rw [← hbatchts a ha, ← hbatchts b hb]
        exact hab
      have hev : ((((sortPending st.pending).take
          (min ctx.batch_size st.pending.length)).map (·.event))).Pairwise
          (fun a b : Event => a.created_at ≤ b.created_at) :=
        List.pairwise_map.mpr hpw
      exact hev.sublist (List.filter_sublist _)

/-- Witness for C6 at a concrete two-event buffer whose wrapper timestamps
match the events' `created_at`. -/
theorem C6_batch_order_witness :
    (∀ w ∈ [EventWrapper.mk eSignalNoKeys 1000, EventWrapper.mk eEcho 1000],
      w.timestamp = w.event.created_at) ∧
    ((sortPending [EventWrapper.mk eSignalNoKeys 1000, EventWrapper.mk eEcho 1000]).take
      (min ctxBs1.batch_size 2) ++
     (sortPending [EventWrapper.mk eSignalNoKeys 1000, EventWrapper.mk eEcho 1000]).drop
      (min ctxBs1.batch_size 2)).Perm
      [EventWrapper.mk eSignalNoKeys 1000, EventWrapper.mk eEcho 1000] := by
  refine ⟨by decide, ?_⟩
  have h := C6_batch_order ctxBs1
    { pending := [EventWrapper.mk eSignalNoKeys 1000, EventWrapper.mk eEcho 1000],
      db := emptyDb, heartbeat_seen := [], dedup := { forwarded := [] },
      downstream := [], fanout := [], publishes := [] } (by decide)
  exact h.1

/-! ## C4 — settlement status mapping -/

/-- `award_credits` leaves the trades table alone. -/
theorem award_credits_trades (db : Db) (b f : String) (c : ℚ) :
    (award_credits db b f c).trades = db.trades := by
  simp only [award_credits]
  split <;> rfl

/-- The credits column written by `award_credits` depends only on the
incoming credits table. -/
theorem award_credits_credits_congr (dbA dbB : Db) (b f : String) (c : ℚ)
    (h : dbA.credits = dbB.credits) :
    (award_credits dbA b f c).credits = (award_credits dbB b f c).credits := by
  simp only [award_credits, h]
  split <;> rfl

/-- `update_trade_settlement` leaves the credits table alone. -/
theorem update_trade_settlement_credits (db : Db) (tx oid : Option String)
    (s : String) (p pu : Option ℚ) (now : Nat) :
    (update_trade_settlement db tx oid s p pu now).credits = db.credits := by
  simp only [update_trade_settlement]
  split <;> rfl

/-- Reduction of `tickTrade` when the explorer confirms and a credit is
computed: confirm the row, then award. -/
theorem tickTrade_confirmed (cfg : Option SettlementCreditConfig)
    (explorer : String → Nat) (now : Nat) (db : Db) (t : PendingTrade) (c : ℚ)
    (hv : verify_tx_opt explorer t.tx_hash = some true)
    (hc : compute_credit cfg t = some c) :
    tickTrade cfg explorer now db t =
      award_credits (update_trade_settlement db t.tx_hash t.oid "confirmed" none none now)
        t.bot_pubkey (t.follower_pubkey.getD t.bot_pubkey) c := by
  simp only [tickTrade, hv, hc]

/-- Reduction of `tickTrade` when the explorer confirms but no credit is
computed: just confirm the row. -/
theorem tickTrade_confirmed_nocredit (cfg : Option SettlementCreditConfig)
    (explorer : String → Nat) (now : Nat) (db : Db) (t : PendingTrade)
    (hv : verify_tx_opt explorer t.tx_hash = some true)
    (hc : compute_credit cfg t = none) :
    tickTrade cfg explorer now db t =
      update_trade_settlement db t.tx_hash t.oid "confirmed" none none now := by
  simp only [tickTrade, hv, hc]

/-- Reduction of `tickTrade` when the explorer refutes: fail the row. -/
theorem tickTrade_failed (cfg : Option SettlementCreditConfig)
    (explorer : String → Nat) (now : Nat) (db : Db) (t : PendingTrade)
    (hv : verify_tx_opt explorer t.tx_hash = some false) :
    tickTrade cfg explorer now db t =
      update_trade_settlement db t.tx_hash t.oid "failed" none none now := by
  simp only [tickTrade, hv]

/-- Reduction of `tickTrade` on no answer with a (possibly empty) hash
present: leave the row untouched. -/
theorem tickTrade_unknown_hash (cfg : Option SettlementCreditConfig)
    (explorer : String → Nat) (now : Nat) (db : Db) (t : PendingTrade)
    (hv : verify_tx_opt explorer t.tx_hash = none)
    (ht : t.tx_hash.isNone = false) :
    tickTrade cfg explorer now db t = db := by
  simp only [tickTrade, hv, ht]
  rfl

/-- Reduction of `tickTrade` with no hash at all and a computed credit:
award, then confirm. -/
theorem tickTrade_nohash_credit (cfg : Option SettlementCreditConfig)
    (explorer : String → Nat) (now : Nat) (db : Db) (t : PendingTrade) (c : ℚ)
    (ht : t.tx_hash = none)
    (hc : compute_credit cfg t = some c) :
    tickTrade cfg explorer now db t =
      update_trade_settlement
        (award_credits db t.bot_pubkey (t.follower_pubkey.getD t.bot_pubkey) c)
        t.tx_hash t.oid "confirmed" none none now := by
  simp only [tickTrade, ht, hc, Option.isNone_none, if_true]
  simp [verify_tx_opt]

/-- Reduction of `tickTrade` with no hash at all and no computed credit:
just confirm. -/
theorem tickTrade_nohash_nocredit (cfg : Option SettlementCreditConfig)
    (explorer : String → Nat) (now : Nat) (db : Db) (t : PendingTrade)
    (ht : t.tx_hash = none)
    (hc : compute_credit cfg t = none) :
    tickTrade cfg explorer now db t =
      update_trade_settlement db t.tx_hash t.oid "confirmed" none none now := by
  simp only [tickTrade, ht, hc, Option.isNone_none, if_true]
  simp [verify_tx_opt]

/-- C4: in one settlement tick over a single pending trade — explorer 200
confirms it (awarding the computed credit), 404 leaves everything
untouched, any other 4xx/5xx fails it without credits; an absent
`tx_hash` (with the schema-invariant `oid` present) credits and confirms
within the same tick. -/
theorem C4_settlement_mapping (cfg : Option SettlementCreditConfig)
    (explorer : String → Nat) (limit now : Nat) (row : TradeRow) (db : Db)
    (hdb : db.trades = [row]) (hst : row.status = "pending") (hlim : 0 < limit) :
    (∀ hsh, row.tx_hash = some hsh → hsh ≠ "" →
      (explorer hsh = 200 →
        (tick cfg explorer limit now db).trades.map (·.status) = ["confirmed"] ∧
        (∀ c, compute_credit cfg row.toPending = some c →
          (tick cfg explorer limit now db).credits =
            (award_credits db row.bot_pubkey
              (row.follower_pubkey.getD row.bot_pubkey) c).credits) ∧
        (compute_credit cfg row.toPending = none →
          (tick cfg explorer limit now db).credits = db.credits)) ∧
      (explorer hsh = 404 → tick cfg explorer limit now db = db) ∧
      (∀ s, explorer hsh = s → 400 ≤ s → s < 600 → s ≠ 404 →
        (tick cfg explorer limit now db).trades.map (·.status) = ["failed"] ∧
        (tick cfg explorer limit now db).credits = db.credits)) ∧
    (row.tx_hash = none → ∀ o, row.oid = some o →
      (tick cfg explorer limit now db).trades.map (·.status) = ["confirmed"] ∧
      (∀ c, compute_credit cfg row.toPending = some c →
        (tick cfg explorer limit now db).credits =
          (award_credits db row.bot_pubkey
            (row.follower_pubkey.getD row.bot_pubkey) c).credits) ∧
      (compute_credit cfg row.toPending = none →
        (tick cfg explorer limit now db).credits = db.credits)) := by
  have hlist : list_pending_trades db limit = [row.toPending] := by
    simp only [list_pending_trades, hdb, List.filter_cons, hst]
    rw [if_pos (by simp)]
    simp only [List.filter_nil]
    rw [List.take_of_length_le (by simp; omega)]
    rfl
  have htick : tick cfg explorer limit now db =
      tickTrade cfg explorer now db row.toPending := by
    rw [tick, hlist]
    rfl
  constructor
  · intro hsh htx hne
    have hptx : row.toPending.tx_hash = some hsh := htx
    refine ⟨?_, ?_, ?_⟩
    · intro hex
      have hv : verify_tx_opt explorer row.toPending.tx_hash = some true := by
        simp [verify_tx_opt, hptx, hne, hex]
      have hupd : (update_trade_settlement db row.toPending.tx_hash row.toPending.oid
          "confirmed" none none now).trades.map (·.status) = ["confirmed"] := by
        simp [update_trade_settlement, hptx, hdb, settlementMatches, htx]
      cases hc : compute_credit cfg row.toPending with
      | none =>
        rw [htick, tickTrade_confirmed_nocredit cfg explorer now db row.toPending hv hc]
        refine ⟨hupd, ?_, ?_⟩
        · intro c' hc'
          exact Option.noConfusion hc'
        · intro _
          exact update_trade_settlement_credits db _ _ _ _ _ now
      | some c =>
        rw [htick, tickTrade_confirmed cfg explorer now db row.toPending c hv hc]
        refine ⟨?_, ?_, ?_⟩
        · rw [award_credits_trades]
          exact hupd
        · intro c' hc'
          obtain rfl : c = c' := Option.some.inj hc'
          exact award_credits_credits_congr _ db _ _ _
            (update_trade_settlement_credits db _ _ _ _ _ now)
        · intro h0
          exact Option.noConfusion h0
    · intro hex
      have hv : verify_tx_opt explorer row.toPending.tx_hash = none := by
        simp [verify_tx_opt, hptx, hne, hex]
      rw [htick, tickTrade_unknown_hash cfg explorer now db row.toPending hv
        (by simp [hptx])]
    · intro s hex h400 h600 h404
      have hv : verify_tx_opt explorer row.toPending.tx_hash = some false := by
        have h200 : s ≠ 200 := by omega
        simp [verify_tx_opt, hptx, hne, hex, h200, h404, h400, h600]
      rw [htick, tickTrade_failed cfg explorer now db row.toPending hv]
      constructor
      · simp [update_trade_settlement, hptx, hdb, settlementMatches, htx]
      · exact update_trade_settlement_credits db _ _ _ _ _ now
  · intro htx o hoid
    have hptx : row.toPending.tx_hash = none := htx
    have hpoid : row.toPending.oid = some o := hoid
    have hupd : ∀ dbX : Db, dbX.trades = [row] →
        (update_trade_settlement dbX row.toPending.tx_hash row.toPending.oid
          "confirmed" none none now).trades.map (·.status) = ["confirmed"] := by
      intro dbX hX
      simp [update_trade_settlement, hptx, hpoid, hX, settlementMatches, hoid]
    cases hc : compute_credit cfg row.toPending with
    | none =>
      rw [htick, tickTrade_nohash_nocredit cfg explorer now db row.toPending hptx hc]
      refine ⟨hupd db hdb, ?_, ?_⟩
      · intro c' hc'
        exact Option.noConfusion hc'
      · intro _
        exact update_trade_settlement_credits db _ _ _ _ _ now
    | some c =>
      rw [htick, tickTrade_nohash_credit cfg explorer now db row.toPending c hptx hc]
      refine ⟨?_, ?_, ?_⟩
      · exact hupd _ (by rw [award_credits_trades, hdb])
      · intro c' hc'
        obtain rfl : c = c' := Option.some.inj hc'
        exact update_trade_settlement_credits _ _ _ _ _ _ now
      · intro h0
        exact Option.noConfusion h0

/-- Witness for C4: a 404 from the explorer leaves the one-trade database
exactly as it was. -/
theorem C4_settlement_mapping_witness :
    tick (some cfgC3) (fun _ => 404) 50 7 dbC4 = dbC4 :=
  ((C4_settlement_mapping (some cfgC3) (fun _ => 404) 50 7 rowC4 dbC4 rfl rfl
    (by decide)).1 "0xdead" rfl (by decide)).2.1 rfl
